import Mathlib

/-!
Verification of the torq CLI: a shallow embedding of the subprocess helpers
(`src/utils.py`), the config subcommand (`src/config.py`), and the parts of the
session orchestration that the specification describes.  External effects
(the filesystem, spawned subprocesses, the attached device, the wall clock)
are modelled as explicit inputs; each Lean definition mirrors one Python
function of the repository.
-/

namespace Torq

/-! ### Subprocess model (`src/utils.py`, `run_subprocess`) -/

/-- The result object of `subprocess.run`: only the return code matters to the
control flow of `run_subprocess`. -/
structure CompletedProcess where
  returncode : Int
deriving DecidableEq, Repr

/-- The exception raised by `CompletedProcess.check_returncode` on a non-zero
return code. -/
inductive SubprocessError where
  | calledProcessError (returncode : Int)
deriving DecidableEq, Repr

/-- `run_subprocess` (`src/utils.py` lines 168-208): runs the subprocess
(its completed-process object `output` is the environment input here), calls
`check_returncode()` whenever the return code is truthy (non-zero) and not in
`ignore_returncodes`, and otherwise returns the completed process exactly when
`capture_output` is set, `None` otherwise. -/
def run_subprocess (output : CompletedProcess) (ignore_returncodes : List Int)
    (capture_output : Bool) : Except SubprocessError (Option CompletedProcess) :=
  if output.returncode ≠ 0 ∧ output.returncode ∉ ignore_returncodes then
    Except.error (SubprocessError.calledProcessError output.returncode)
  else if capture_output then Except.ok (some output)
  else Except.ok none

/-! ### Two-stage simpleperf-to-gecko conversion (`src/utils.py` lines 67-84) -/

/-- Environment of one `convert_simpleperf_to_gecko` call: the exit codes the
two external shell commands would report, and whether the gecko output file
exists on disk once the stages that actually ran have finished. -/
structure ConversionEnv where
  stage1_returncode : Int
  stage2_returncode : Int
  gecko_file_exists : Bool
deriving DecidableEq, Repr

/-- Errors that `convert_simpleperf_to_gecko` can raise: a
`CalledProcessError` escaping from `run_subprocess`, or the final
`Exception("Gecko file was not created.")`. -/
inductive ConversionError where
  | subprocess (e : SubprocessError)
  | geckoFileNotCreated
deriving DecidableEq, Repr

/-- `convert_simpleperf_to_gecko` (`src/utils.py` lines 67-84): stage 1 runs
`binary_cache_builder.py`, stage 2 runs `gecko_profile_generator.py`, both via
`run_subprocess` with `shell=True` and no ignored return codes; afterwards it
raises when `path_exists` is false for the gecko trace file.  An exception
from `run_subprocess` propagates, so stage 2 does not run if stage 1 fails. -/
def convert_simpleperf_to_gecko (env : ConversionEnv) : Except ConversionError Unit :=
  match run_subprocess ⟨env.stage1_returncode⟩ [] false with
  | Except.error e => Except.error (ConversionError.subprocess e)
  | Except.ok _ =>
    match run_subprocess ⟨env.stage2_returncode⟩ [] false with
    | Except.error e => Except.error (ConversionError.subprocess e)
    | Except.ok _ =>
      if env.gecko_file_exists then Except.ok ()
      else Except.error ConversionError.geckoFileNotCreated

/-! ### Theorems for claims C9 and C2 -/

/-- Claim C9: `run_subprocess` raises an error if and only if the return code
is non-zero and not listed in `ignore_returncodes`; on success it returns the
completed-process object exactly when `capture_output` is true and `None`
(here `Except.ok none`) otherwise. -/
theorem run_subprocess_raises_iff (output : CompletedProcess)
    (ignore_returncodes : List Int) (capture_output : Bool) :
    (run_subprocess output ignore_returncodes capture_output =
        Except.error (SubprocessError.calledProcessError output.returncode) ↔
      output.returncode ≠ 0 ∧ output.returncode ∉ ignore_returncodes) ∧
    (output.returncode = 0 ∨ output.returncode ∈ ignore_returncodes →
      run_subprocess output ignore_returncodes capture_output =
        Except.ok (if capture_output then some output else none)) := by
  constructor
  · constructor
    · intro h
      by_contra hc
      rw [run_subprocess, if_neg hc] at h
      by_cases hcap : capture_output = true <;> simp [hcap] at h
    · intro h
      rw [run_subprocess, if_pos h]
  · intro h
    have hc : ¬(output.returncode ≠ 0 ∧ output.returncode ∉ ignore_returncodes) := by
      rcases h with h | h
      · exact fun hx => hx.1 h
      · exact fun hx => hx.2 h
    rw [run_subprocess, if_neg hc]
    by_cases hcap : capture_output = true <;> simp [hcap]

/-- Witness for C9: at return code 0 with `capture_output = true`,
`run_subprocess` succeeds and hands back the completed process. -/
theorem run_subprocess_raises_iff_witness :
    run_subprocess ⟨0⟩ [] true = Except.ok (some ⟨0⟩) := by
  have h := (run_subprocess_raises_iff ⟨0⟩ [] true).2 (Or.inl rfl)
  simpa using h

/-- Counterexample for claim C2: when stage 1 exits with code 1 while the
gecko file does exist, `convert_simpleperf_to_gecko` raises the propagated
`CalledProcessError` — so the conversion does NOT raise if and only if the
stage-2 output file is missing, and success is not judged solely by the
existence of that file. -/
theorem convert_gecko_exit_code_counterexample :
    convert_simpleperf_to_gecko ⟨1, 0, true⟩ =
        Except.error (ConversionError.subprocess
          (SubprocessError.calledProcessError 1)) ∧
      (⟨1, 0, true⟩ : ConversionEnv).gecko_file_exists = true := by
  constructor <;> rfl

/-- Claim C2 (amended): `convert_simpleperf_to_gecko` succeeds if and only if
both external stages exit with code 0 AND the stage-2 output file exists
afterwards; equivalently it raises exactly when a stage exits non-zero (the
`run_subprocess` return-code check) or, both stages having exited zero, the
gecko file is absent. -/
theorem convert_gecko_ok_iff (env : ConversionEnv) :
    convert_simpleperf_to_gecko env = Except.ok () ↔
      env.stage1_returncode = 0 ∧ env.stage2_returncode = 0 ∧
        env.gecko_file_exists = true := by
  constructor
  · intro h
    by_cases h1 : env.stage1_returncode = 0
    · by_cases h2 : env.stage2_returncode = 0
      · refine ⟨h1, h2, ?_⟩
        rw [convert_simpleperf_to_gecko] at h
        rw [show run_subprocess ⟨env.stage1_returncode⟩ [] false = Except.ok none by
          rw [run_subprocess]; simp [h1]] at h
        rw [show run_subprocess ⟨env.stage2_returncode⟩ [] false = Except.ok none by
          rw [run_subprocess]; simp [h2]] at h
        by_cases hg : env.gecko_file_exists = true
        · exact hg
        · simp [hg] at h
      · exfalso
        rw [convert_simpleperf_to_gecko] at h
        rw [show run_subprocess ⟨env.stage1_returncode⟩ [] false = Except.ok none by
          rw [run_subprocess]; simp [h1]] at h
        rw [show run_subprocess ⟨env.stage2_returncode⟩ [] false =
            Except.error (SubprocessError.calledProcessError env.stage2_returncode) by
          rw [run_subprocess]; simp [h2]] at h
        exact Except.noConfusion h
    · exfalso
      rw [convert_simpleperf_to_gecko] at h
      rw [show run_subprocess ⟨env.stage1_returncode⟩ [] false =
          Except.error (SubprocessError.calledProcessError env.stage1_returncode) by
        rw [run_subprocess]; simp [h1]] at h
      exact Except.noConfusion h
  · rintro ⟨h1, h2, hg⟩
    rw [convert_simpleperf_to_gecko]
    rw [show run_subprocess ⟨env.stage1_returncode⟩ [] false = Except.ok none by
      rw [run_subprocess]; simp [h1]]
    rw [show run_subprocess ⟨env.stage2_returncode⟩ [] false = Except.ok none by
      rw [run_subprocess]; simp [h2]]
    simp [hg]

/-! ### Interrupt handling (`src/utils.py`, `wait_for_process_or_ctrl_c`) -/

/-- The two signals the function installs its handler for. -/
inductive Sig where
  | sigint
  | sigterm
deriving DecidableEq, Repr

/-- Observable events of `wait_for_process_or_ctrl_c`: handler installation,
printed lines, the `process.kill()` call, the `sys.exit()` program
termination, and the `process.wait()` call returning. -/
inductive ProcEvent where
  | installHandler (s : Sig)
  | printLine (msg : String)
  | killChild
  | exitProgram
  | waitReturned
deriving DecidableEq, Repr

/-- The body of the inner `signal_handler` (`src/utils.py` lines 89-92), in
statement order: print, `process.kill()`, `sys.exit()`. -/
def signal_handler_events : List ProcEvent :=
  [ProcEvent.printLine "Exiting...", ProcEvent.killChild, ProcEvent.exitProgram]

/-- `wait_for_process_or_ctrl_c` (`src/utils.py` lines 87-98) as the event
trace it produces.  `interrupt = some s` means signal `s` (SIGINT or SIGTERM)
is delivered while `process.wait()` is blocked: the handler runs and its
`sys.exit()` raises `SystemExit`, so the wait never returns and the trailing
print never executes.  `interrupt = none` means the process exits naturally. -/
def wait_for_process_or_ctrl_c (interrupt : Option Sig) : List ProcEvent :=
  [ProcEvent.installHandler Sig.sigint, ProcEvent.installHandler Sig.sigterm] ++
    match interrupt with
    | some _ => signal_handler_events
    | none => [ProcEvent.waitReturned, ProcEvent.printLine "Process was killed."]

/-! ### Pattern polling (`src/utils.py`, `wait_for_output`) -/

/-- The loop of `wait_for_output` (`src/utils.py` lines 101-108).  `lines i`
is what the i-th `process.stdout.readline()` returns (decoded to characters);
`elapsed i` is the value of `time.time() - start_time` at the i-th loop-guard
check.  `fuel` only bounds the recursion: it is chosen large enough below
that it never cuts the loop short when `elapsed` is strictly increasing. -/
def wait_for_output_loop (pattern : List Char) (lines : Nat → List Char)
    (elapsed : Nat → Nat) (timeout : Nat) : Nat → Nat → Bool
  | 0, _ => true
  | fuel + 1, i =>
    if elapsed i < timeout then
      if pattern <:+: lines i then false
      else wait_for_output_loop pattern lines elapsed timeout fuel (i + 1)
    else true

/-- `wait_for_output` (`src/utils.py` lines 101-108): spin-polls stdout
line-by-line; the loop guard compares the wall clock against `timeout` before
each read; a line containing `pattern` (Python `pattern in line.decode()`,
substring containment) returns `False` immediately; once the guard fails the
function returns `True` (timed out). -/
def wait_for_output (pattern : List Char) (lines : Nat → List Char)
    (elapsed : Nat → Nat) (timeout : Nat) : Bool :=
  wait_for_output_loop pattern lines elapsed timeout timeout 0

/-! ### Theorems for claims C6 and C1 -/

/-- Claim C6: after an interrupt (SIGINT or SIGTERM) is delivered during the
wait, the handler kills the child process strictly before the program
terminates, program termination is the final event, and the in-flight
`process.wait()` never resumes (no `waitReturned` event occurs). -/
theorem interrupt_kills_then_exits (s : Sig) :
    (wait_for_process_or_ctrl_c (some s)).indexOf ProcEvent.killChild <
        (wait_for_process_or_ctrl_c (some s)).indexOf ProcEvent.exitProgram ∧
      ProcEvent.killChild ∈ wait_for_process_or_ctrl_c (some s) ∧
      ProcEvent.exitProgram ∈ wait_for_process_or_ctrl_c (some s) ∧
      ProcEvent.waitReturned ∉ wait_for_process_or_ctrl_c (some s) ∧
      (wait_for_process_or_ctrl_c (some s)).getLast? = some ProcEvent.exitProgram := by
  cases s <;> exact ⟨by decide, by decide, by decide, by decide, by decide⟩

/-- Loop invariant for `wait_for_output_loop`: provided the fuel covers the
remaining budget, the loop starting at index `i` times out exactly when no
later in-budget readline yields a line containing the pattern. -/
theorem wait_for_output_loop_spec (pattern : List Char) (lines : Nat → List Char)
    (elapsed : Nat → Nat) (timeout : Nat) (hmono : StrictMono elapsed) :
    ∀ fuel i, timeout ≤ i + fuel →
      (wait_for_output_loop pattern lines elapsed timeout fuel i = true ↔
        ∀ j, i ≤ j → elapsed j < timeout → ¬pattern <:+: lines j) := by
  intro fuel
  induction fuel with
  | zero =>
    intro i hi
    simp only [wait_for_output_loop, true_iff]
    intro j hij hj
    exact absurd hj (by
      have : i ≤ elapsed j := le_trans (le_trans (by omega) hij) hmono.le_apply
      omega)
  | succ fuel ih =>
    intro i hi
    rw [wait_for_output_loop]
    by_cases hguard : elapsed i < timeout
    · rw [if_pos hguard]
      by_cases hmatch : pattern <:+: lines i
      · rw [if_pos hmatch]
        exact ⟨fun h => absurd h Bool.false_ne_true,
          fun h => absurd hmatch (h i (le_refl i) hguard)⟩
      · rw [if_neg hmatch]
        rw [ih (i + 1) (by omega)]
        constructor
        · intro h j hij hj
          rcases eq_or_lt_of_le hij with rfl | hlt
          · exact hmatch
          · exact h j hlt hj
        · intro h j hij hj
          exact h j (by omega) hj
    · rw [if_neg hguard]
      simp only [true_iff]
      intro j hij hj
      exact absurd hj (by
        have : elapsed i ≤ elapsed j := hmono.monotone hij
        omega)

/-- Claim C1: with a strictly advancing wall clock, `wait_for_output` returns
`true` (timed out) if and only if no line read while the budget was still
open contains the pattern; dually it returns `false` exactly when some
in-budget read observes a line containing the pattern, regardless of how much
budget remains at that point. -/
theorem wait_for_output_timed_out_iff (pattern : List Char) (lines : Nat → List Char)
    (elapsed : Nat → Nat) (timeout : Nat) (hmono : StrictMono elapsed) :
    (wait_for_output pattern lines elapsed timeout = true ↔
      ∀ i, elapsed i < timeout → ¬pattern <:+: lines i) ∧
    (wait_for_output pattern lines elapsed timeout = false ↔
      ∃ i, elapsed i < timeout ∧ pattern <:+: lines i) := by
  have h := wait_for_output_loop_spec pattern lines elapsed timeout hmono timeout 0
    (by omega)
  constructor
  · rw [wait_for_output, h]
    exact ⟨fun hall i => hall i (Nat.zero_le i), fun hall i _ => hall i⟩
  · rw [← Bool.not_eq_true, wait_for_output, h]
    push_neg
    constructor
    · rintro ⟨i, _, hi, hm⟩; exact ⟨i, hi, hm⟩
    · rintro ⟨i, hi, hm⟩; exact ⟨i, Nat.zero_le i, hi, hm⟩

/-- Witness for C1: with the identity clock and a budget of 3 ticks, a stream
whose lines never contain the pattern times out, and a stream whose first
line contains the pattern returns `false`. -/
theorem wait_for_output_timed_out_iff_witness :
    wait_for_output "hi".data (fun _ => "nope".data) (fun i => i) 3 = true ∧
      wait_for_output "op".data (fun _ => "nope".data) (fun i => i) 3 = false := by
  constructor
  · exact (wait_for_output_timed_out_iff "hi".data (fun _ => "nope".data)
      (fun i => i) 3 strictMono_id).1.2 (by decide)
  · exact (wait_for_output_timed_out_iff "op".data (fun _ => "nope".data)
      (fun i => i) 3 strictMono_id).2.2 ⟨0, by decide, by decide⟩

/-! ### Validation errors and the parsed argument record (`src/config.py`) -/

/-- `ValidationError` from `base.py`: a user-facing message plus an optional
corrective suggestion (shape visible in `src/torq.py` `print_error` and in
the construction sites of `src/config.py` and `src/utils.py`). -/
structure ValidationError where
  message : String
  suggestion : Option String
deriving DecidableEq, Repr

/-- The fields of the parsed `argparse` namespace that the config and trigger
validation reads and writes.  `none` models a Python `None` (option not
passed on the command line). -/
structure Args where
  config_subcommand : Option String
  config_name : String
  file_path : Option String
  dur_ms : Option Nat
  runs : Nat
  profiler : String
  trigger_names : Option (List String)
  trigger_stop_delay_ms : Option (List Nat)
  trigger_timeout_ms : Option Nat
  trigger_mode : Option String
deriving DecidableEq, Repr

/-- Modelled from the spec: the default stop-delay applied to every trigger
when none is passed; the constant lives in the absent `profiler.py`/`base.py`
sources, and its numeric value is irrelevant to the claims below. -/
def DEFAULT_TRIGGER_STOP_DELAY_MS : Nat := 1000

/-- The `ValidationError` rejecting a stop-delay list whose length does not
match the trigger-name count (message text as asserted by
`tests/torq_unit_test.py` lines 778-793). -/
def trigger_stop_delay_count_error : ValidationError :=
  ⟨"Command is invalid because number of trigger names passed is not equal to number of stop-delay-ms values passed.",
   some "Pass only one stop-delay-ms value to use for all triggers, pass none to use the default value for all triggers, or pass an equal number of trigger names and stop-delay-ms values."⟩

/-- Modelled from the spec: `verify_trigger_args` lives in `profiler.py`,
which is not among the sources here (only its callers in `src/config.py` and
its unit tests are).  Per the spec (section 3 TriggerSpec and section 8):
trigger options require trigger names; a trigger spec excludes an explicit
duration and forces run-count 1; a single stop-delay value is broadcast to
every trigger name; a per-trigger stop-delay list must match the trigger-name
count exactly, and a mismatch is rejected with a `ValidationError` before any
device interaction (the function is pure and takes no device). -/
def verify_trigger_args (args : Args) : Option Args × Option ValidationError :=
  match args.trigger_names with
  | none =>
    if args.trigger_timeout_ms ≠ none then
      (none, some ⟨"Command is invalid because --trigger-timeout-ms cannot be set without --trigger-names.",
        some "Set --trigger-names or remove --trigger-timeout-ms."⟩)
    else if args.trigger_stop_delay_ms ≠ none then
      (none, some ⟨"Command is invalid because --trigger-stop-delay-ms cannot be set without --trigger-names.",
        some "Set --trigger-names or remove --trigger-stop-delay-ms."⟩)
    else if args.trigger_mode ≠ none then
      (none, some ⟨"Command is invalid because --trigger-mode cannot be set without --trigger-names.",
        some "Set --trigger-names or remove --trigger-mode."⟩)
    else (some args, none)
  | some names =>
    if args.profiler ≠ "perfetto" then
      (none, some ⟨"Command is invalid because --trigger-names cannot be passed if --profiler is not set to perfetto.",
        some "Set -p perfetto to use trigger-names."⟩)
    else if args.dur_ms ≠ none then
      (none, some ⟨"Command is invalid because --dur-ms cannot be passed if a perfetto trigger is being set.",
        some "Run command with a --trigger-timeout-ms option instead of --dur-ms."⟩)
    else if args.runs > 1 then
      (none, some ⟨"Command is invalid because the number of runs cannot be more than 1 when including trigger configs.",
        some "Run command without the -r option."⟩)
    else
      match args.trigger_stop_delay_ms with
      | none =>
        (some { args with
                trigger_stop_delay_ms :=
                  some (names.map fun _ => DEFAULT_TRIGGER_STOP_DELAY_MS) }, none)
      | some [v] =>
        (some { args with
                trigger_stop_delay_ms := some (names.map fun _ => v) }, none)
      | some vs =>
        if vs.length = names.length then (some args, none)
        else (none, some trigger_stop_delay_count_error)

/-- The `ValidationError` returned by `verify_config_args` when `torq config`
is called without a subcommand (`src/config.py` lines 69-75). -/
def torq_config_no_subcommand_error : ValidationError :=
  ⟨"Command is invalid because torq config cannot be called without a subcommand.",
   some "Use one of the following subcommands:\n\t torq config list\n\t torq config show\n\t torq config pull\n"⟩

/-- The `ValidationError` returned by `verify_config_args` when the supplied
pull destination is not an existing file (`src/config.py` lines 80-87). -/
def pull_filepath_error (file_path : String) : ValidationError :=
  ⟨"Command is invalid because " ++ file_path ++ " is not a valid filepath.",
   some "A default filepath can be used if you do not specify a file-path:\n\t torq pull default to copy to ./default.pbtxt\n\t torq pull lightweight to copy to ./lightweight.pbtxt\n\t torq pull memory to copy to ./memory.pbtxt"⟩

/-- `verify_config_args` (`src/config.py` lines 68-94).  `isfile` is the
`os.path.isfile` oracle.  For `pull`, a missing destination defaults to
`./<config_name>.pbtxt` while a supplied destination must already be an
existing file; every subcommand except `list` then sets `runs = 1` and
`profiler = "perfetto"` and defers to `verify_trigger_args`. -/
def verify_config_args (isfile : String → Bool) (args : Args) :
    Option Args × Option ValidationError :=
  match args.config_subcommand with
  | none => (none, some torq_config_no_subcommand_error)
  | some sub =>
    let pull_checked : Except ValidationError Args :=
      if sub = "pull" then
        match args.file_path with
        | none => Except.ok
            { args with file_path := some ("./" ++ args.config_name ++ ".pbtxt") }
        | some p =>
            if isfile p then Except.ok args else Except.error (pull_filepath_error p)
      else Except.ok args
    match pull_checked with
    | Except.error e => (none, some e)
    | Except.ok args1 =>
      if sub ≠ "list" then
        verify_trigger_args { args1 with runs := 1, profiler := "perfetto" }
      else (some args1, none)

/-! ### Theorems for claims C3 and C10 -/

/-- Claim C3: for a trigger spec passing the profiler/duration/run-count
preconditions, a single stop-delay value is broadcast to every trigger name,
and a stop-delay list (two or more entries) whose length differs from the
trigger-name count is rejected with a `ValidationError` by the pure
validation layer, before any device interaction. -/
theorem trigger_stop_delay_broadcast_or_reject (args : Args) (names : List String)
    (hnames : args.trigger_names = some names) (hprof : args.profiler = "perfetto")
    (hdur : args.dur_ms = none) (hruns : args.runs ≤ 1) :
    (∀ v, args.trigger_stop_delay_ms = some [v] →
      verify_trigger_args args =
        (some { args with trigger_stop_delay_ms := some (names.map fun _ => v) },
         none)) ∧
    (∀ vs, args.trigger_stop_delay_ms = some vs → 2 ≤ vs.length →
      vs.length ≠ names.length →
      verify_trigger_args args = (none, some trigger_stop_delay_count_error)) := by
  have hruns' : ¬args.runs > 1 := by omega
  constructor
  · intro v hv
    simp [verify_trigger_args, hnames, hprof, hdur, hruns', hv]
  · intro vs hvs hlen hne
    match vs, hlen with
    | a :: b :: tl, _ =>
      simp only [verify_trigger_args, hnames, hprof, hdur, hruns', hvs]
      have hne' : ¬(tl.length + 1 + 1 = names.length) := by simpa using hne
      simp [hne']

/-- Witness for C3: with two trigger names, the single value 7 is broadcast
to both, and a three-element stop-delay list is rejected. -/
theorem trigger_stop_delay_broadcast_or_reject_witness :
    verify_trigger_args
        ⟨none, "default", none, none, 1, "perfetto", some ["a.b", "c.d"],
         some [7], none, none⟩ =
      (some ⟨none, "default", none, none, 1, "perfetto", some ["a.b", "c.d"],
         some [7, 7], none, none⟩, none) ∧
    verify_trigger_args
        ⟨none, "default", none, none, 1, "perfetto", some ["a.b", "c.d"],
         some [7, 8, 9], none, none⟩ =
      (none, some trigger_stop_delay_count_error) := by
  constructor
  · have h := (trigger_stop_delay_broadcast_or_reject
      ⟨none, "default", none, none, 1, "perfetto", some ["a.b", "c.d"],
        some [7], none, none⟩
      ["a.b", "c.d"] rfl rfl rfl (by decide)).1 7 rfl
    exact h
  · exact (trigger_stop_delay_broadcast_or_reject
      ⟨none, "default", none, none, 1, "perfetto", some ["a.b", "c.d"],
        some [7, 8, 9], none, none⟩
      ["a.b", "c.d"] rfl rfl rfl (by decide)).2 [7, 8, 9] rfl (by decide) (by decide)

/-- Claim C10: for `config pull`, a missing destination path is defaulted to
`./<config_name>.pbtxt` and (absent trigger options) validation succeeds,
while a supplied destination that is not an existing file is rejected with a
`ValidationError`. -/
theorem config_pull_filepath_default_or_reject (isfile : String → Bool) (args : Args) :
    (args.config_subcommand = some "pull" → args.file_path = none →
      args.trigger_names = none → args.trigger_stop_delay_ms = none →
      args.trigger_timeout_ms = none → args.trigger_mode = none →
      verify_config_args isfile args =
        (some { args with
                  file_path := some ("./" ++ args.config_name ++ ".pbtxt"),
                  runs := 1, profiler := "perfetto" }, none)) ∧
    (∀ p, args.config_subcommand = some "pull" → args.file_path = some p →
      isfile p = false →
      verify_config_args isfile args = (none, some (pull_filepath_error p))) := by
  constructor
  · intro hsub hfp htn htsd htt htm
    simp [verify_config_args, hsub, hfp, verify_trigger_args, htn, htsd, htt, htm]
  · intro p hsub hfp hfile
    simp [verify_config_args, hsub, hfp, hfile]

/-- Witness for C10: `torq config pull` on config name `default` with no
destination defaults to `./default.pbtxt` and validates; with an absent file
`/nope` as destination it is rejected. -/
theorem config_pull_filepath_default_or_reject_witness :
    verify_config_args (fun _ => false)
        ⟨some "pull", "default", none, none, 0, "", none, none, none, none⟩ =
      (some ⟨some "pull", "default", some "./default.pbtxt", none, 1,
        "perfetto", none, none, none, none⟩, none) ∧
    verify_config_args (fun _ => false)
        ⟨some "pull", "default", some "/nope", none, 0, "", none, none, none,
          none⟩ =
      (none, some (pull_filepath_error "/nope")) := by
  constructor
  · exact (config_pull_filepath_default_or_reject (fun _ => false)
      ⟨some "pull", "default", none, none, 0, "", none, none, none, none⟩).1
      rfl rfl rfl rfl rfl rfl
  · exact (config_pull_filepath_default_or_reject (fun _ => false)
      ⟨some "pull", "default", some "/nope", none, 0, "", none, none, none,
        none⟩).2 "/nope" rfl rfl rfl

/-! ### Executing config show / pull / list (`src/config.py` lines 127-156) -/

/-- The fallback SDK version used when no device is reachable; the constant
`ANDROID_SDK_VERSION_T` lives in the absent `base.py`, its numeric value
(Android T) is irrelevant to the claims below. -/
def ANDROID_SDK_VERSION_T : Nat := 33

/-- The device handle as `execute_show_or_pull_command` sees it:
`connection_error` is what `check_device_connection()` returns (`none` means
connected), `android_sdk_version` what `get_android_sdk_version()` would
report. -/
structure AdbDevice where
  connection_error : Option ValidationError
  android_sdk_version : Nat
deriving DecidableEq, Repr

/-- The device calls `execute_show_or_pull_command` can issue. -/
inductive DeviceCall where
  | checkDeviceConnection
  | rootDevice
  | getAndroidSdkVersion
deriving DecidableEq, Repr

/-- The fields of `ConfigCommand` (`src/config.py` lines 159-176) that
`execute_show_or_pull_command` reads. -/
structure ConfigCommand where
  type : String
  config_name : String
  file_path : Option String
deriving DecidableEq, Repr

/-- The externally visible output of one config command execution. -/
inductive ConfigOutput where
  | noOutput
  | pulledFile (file_path : Option String) (config : String)
  | printedText (text : String)
deriving DecidableEq, Repr

/-- Result of `execute_show_or_pull_command`: the returned error, the
produced output, and the device calls issued, in order. -/
structure ExecResult where
  error : Option ValidationError
  output : ConfigOutput
  device_calls : List DeviceCall
deriving DecidableEq, Repr

/-- The text printed by `config show` (`src/config.py` line 143):
`"\n".join(config.strip().split("\n")[2:-2])`. -/
def show_printed_text (config : String) : String :=
  String.intercalate "\n" ((((config.trim.splitOn "\n").drop 2).dropLast).dropLast)

/-- `execute_show_or_pull_command` (`src/config.py` lines 127-144).
`builder` stands for `PREDEFINED_PERFETTO_CONFIGS[command.config_name]` (the
catalog lives in the absent `config_builder.py`): it maps the command and an
SDK version to a config string and an optional error.  When the connectivity
check fails the device is neither rooted nor queried and the default SDK
version is used; the `error` variable is then reassigned from the builder
call, so the connectivity error is dropped. -/
def execute_show_or_pull_command (command : ConfigCommand) (device : AdbDevice)
    (builder : ConfigCommand → Nat → String × Option ValidationError) : ExecResult :=
  let sdk_and_calls : Nat × List DeviceCall :=
    match device.connection_error with
    | none =>
      (device.android_sdk_version,
       [DeviceCall.checkDeviceConnection, DeviceCall.rootDevice,
        DeviceCall.getAndroidSdkVersion])
    | some _ => (ANDROID_SDK_VERSION_T, [DeviceCall.checkDeviceConnection])
  match builder command sdk_and_calls.1 with
  | (_, some err) => ⟨some err, ConfigOutput.noOutput, sdk_and_calls.2⟩
  | (config, none) =>
    if command.type = "config pull" then
      ⟨none, ConfigOutput.pulledFile command.file_path config, sdk_and_calls.2⟩
    else
      ⟨none, ConfigOutput.printedText (show_printed_text config), sdk_and_calls.2⟩

/-- The string printed by `torq config list` (`src/config.py` line 151):
the keys of the predefined-config catalog, in insertion order, joined by
newlines.  The catalog is modelled as an insertion-ordered association list,
which is exactly the iteration-order guarantee of a Python `dict`. -/
def config_list_text {β : Type} (predefined_perfetto_configs : List (String × β)) : String :=
  String.intercalate "\n" (predefined_perfetto_configs.map Prod.fst)

/-- `execute_config_command` (`src/config.py` lines 147-156): dispatch on the
command type; `config list` prints the catalog keys and touches neither the
catalog nor the device; other config subcommands defer to
`execute_show_or_pull_command`; anything else raises `ValueError`.  The pair
result carries the catalog state after the call, making mutation (or its
absence) explicit. -/
def execute_config_command {β : Type} (command : ConfigCommand) (device : AdbDevice)
    (builder : ConfigCommand → Nat → String × Option ValidationError)
    (predefined_perfetto_configs : List (String × β)) :
    Except String (ExecResult × List (String × β)) :=
  if command.type = "config list" then
    Except.ok
      (⟨none, ConfigOutput.printedText (config_list_text predefined_perfetto_configs), []⟩,
       predefined_perfetto_configs)
  else if command.type = "config show" ∨ command.type = "config pull" then
    Except.ok (execute_show_or_pull_command command device builder,
      predefined_perfetto_configs)
  else Except.error "Invalid config subcommand was used."

/-! ### Theorems for claims C8 and C7 -/

/-- Claim C8: when the connectivity check fails, `execute_show_or_pull_command`
issues no further device call, returns no device error (its returned error is
exactly the builder error computed at the default SDK version
`ANDROID_SDK_VERSION_T`), and, whenever the builder succeeds, still produces
the config output (the pulled file for `config pull`, the printed text
otherwise). -/
theorem show_or_pull_proceeds_without_device (command : ConfigCommand)
    (device : AdbDevice)
    (builder : ConfigCommand → Nat → String × Option ValidationError)
    (e : ValidationError) (h : device.connection_error = some e) :
    (execute_show_or_pull_command command device builder).device_calls =
        [DeviceCall.checkDeviceConnection] ∧
      (execute_show_or_pull_command command device builder).error =
        (builder command ANDROID_SDK_VERSION_T).2 ∧
      ((builder command ANDROID_SDK_VERSION_T).2 = none →
        (execute_show_or_pull_command command device builder).output =
          (if command.type = "config pull" then
            ConfigOutput.pulledFile command.file_path
              (builder command ANDROID_SDK_VERSION_T).1
          else
            ConfigOutput.printedText
              (show_printed_text (builder command ANDROID_SDK_VERSION_T).1))) := by
  rcases hb : builder command ANDROID_SDK_VERSION_T with ⟨config, err⟩
  cases err with
  | none =>
    by_cases hp : command.type = "config pull" <;>
      simp [execute_show_or_pull_command, h, hb, hp]
  | some err =>
    simp [execute_show_or_pull_command, h, hb]

/-- Witness for C8: a disconnected device, a builder that succeeds, and a
`config pull` command still produce the pulled-file output, with the
connectivity check as the only device call and no error returned. -/
theorem show_or_pull_proceeds_without_device_witness :
    execute_show_or_pull_command ⟨"config pull", "default", some "./default.pbtxt"⟩
        ⟨some ⟨"Device not connected.", none⟩, 35⟩ (fun _ _ => ("cfg", none)) =
      ⟨none, ConfigOutput.pulledFile (some "./default.pbtxt") "cfg",
        [DeviceCall.checkDeviceConnection]⟩ := by
  have h := show_or_pull_proceeds_without_device
    ⟨"config pull", "default", some "./default.pbtxt"⟩
    ⟨some ⟨"Device not connected.", none⟩, 35⟩ (fun _ _ => ("cfg", none))
    ⟨"Device not connected.", none⟩ rfl
  have hout := h.2.2 rfl
  have herr := h.2.1
  have hcalls := h.1
  rw [if_pos rfl] at hout
  calc execute_show_or_pull_command
        ⟨"config pull", "default", some "./default.pbtxt"⟩
        ⟨some ⟨"Device not connected.", none⟩, 35⟩ (fun _ _ => ("cfg", none)) =
      ⟨(execute_show_or_pull_command
          ⟨"config pull", "default", some "./default.pbtxt"⟩
          ⟨some ⟨"Device not connected.", none⟩, 35⟩
          (fun _ _ => ("cfg", none))).error,
        (execute_show_or_pull_command
          ⟨"config pull", "default", some "./default.pbtxt"⟩
          ⟨some ⟨"Device not connected.", none⟩, 35⟩
          (fun _ _ => ("cfg", none))).output,
        (execute_show_or_pull_command
          ⟨"config pull", "default", some "./default.pbtxt"⟩
          ⟨some ⟨"Device not connected.", none⟩, 35⟩
          (fun _ _ => ("cfg", none))).device_calls⟩ := rfl
    _ = ⟨none, ConfigOutput.pulledFile (some "./default.pbtxt") "cfg",
          [DeviceCall.checkDeviceConnection]⟩ := by rw [herr, hout, hcalls]

/-- Claim C7: executing `torq config list` twice in the same process — the
second execution running on the catalog state left behind by the first —
prints the identical ordered key list both times. -/
theorem config_list_twice_identical {β : Type} (command : ConfigCommand)
    (device : AdbDevice)
    (builder : ConfigCommand → Nat → String × Option ValidationError)
    (predefined_perfetto_configs : List (String × β))
    (h : command.type = "config list") :
    ∃ text state1,
      execute_config_command command device builder predefined_perfetto_configs =
          Except.ok (⟨none, ConfigOutput.printedText text, []⟩, state1) ∧
        execute_config_command command device builder state1 =
          Except.ok (⟨none, ConfigOutput.printedText text, []⟩, state1) := by
  refine ⟨config_list_text predefined_perfetto_configs, predefined_perfetto_configs,
    ?_, ?_⟩ <;> simp [execute_config_command, h]

/-- Witness for C7: listing a two-entry catalog twice prints
`"lightweight\ndefault"` both times. -/
theorem config_list_twice_identical_witness :
    ∃ text state1,
      execute_config_command (β := Unit) ⟨"config list", "", none⟩ ⟨none, 33⟩
          (fun _ _ => ("", none)) [("lightweight", ()), ("default", ())] =
          Except.ok (⟨none, ConfigOutput.printedText text, []⟩, state1) ∧
        execute_config_command ⟨"config list", "", none⟩ ⟨none, 33⟩
          (fun _ _ => ("", none)) state1 =
          Except.ok (⟨none, ConfigOutput.printedText text, []⟩, state1) :=
  config_list_twice_identical ⟨"config list", "", none⟩ ⟨none, 33⟩
    (fun _ _ => ("", none)) [("lightweight", ()), ("default", ())] rfl

/-! ### Session orchestration loop (spec-modelled) -/

/-- Observable events of the multi-run session loop: the start of iteration
`i`, and the inter-run sleep of `between_dur_ms` milliseconds. -/
inductive RunEvent where
  | runStart (i : Nat)
  | sleepBetween (ms : Nat)
deriving DecidableEq, Repr

/-- Whether an event is the inter-run sleep. -/
def RunEvent.isSleep : RunEvent → Bool
  | RunEvent.sleepBetween _ => true
  | RunEvent.runStart _ => false

/-- Modelled from the spec: the SessionOrchestrator multi-run loop lives in
the absent `profiler.py`.  Per the spec (section 4.1), a validated command
executes `runs` iterations sequentially and, for `runs > 1`, sleeps
`between_dur_ms` between consecutive iterations; this is the event trace of
that loop — every iteration after the first is preceded by exactly one
sleep. -/
def session_events : Nat → Nat → List RunEvent
  | 0, _ => []
  | 1, _ => [RunEvent.runStart 0]
  | n + 2, ms =>
    session_events (n + 1) ms ++
      [RunEvent.sleepBetween ms, RunEvent.runStart (n + 1)]

/-- Interspersing a separator into a list extended by one element appends the
separator and that element. -/
theorem intersperse_append_pair {α : Type} (sep a : α) (l : List α) (h : l ≠ []) :
    List.intersperse sep (l ++ [a]) = List.intersperse sep l ++ [sep, a] := by
  induction l with
  | nil => exact absurd rfl h
  | cons x xs ih =>
    cases xs with
    | nil => simp [List.intersperse_cons_cons, List.intersperse_singleton]
    | cons y ys =>
      have hih := ih (by simp)
      simp only [List.cons_append, List.intersperse_cons_cons] at hih ⊢
      rw [hih]

/-- The session trace is the run starts, in order, with one sleep interspersed
between each consecutive pair. -/
theorem session_events_eq_intersperse (n ms : Nat) :
    session_events (n + 1) ms =
      List.intersperse (RunEvent.sleepBetween ms)
        ((List.range (n + 1)).map RunEvent.runStart) := by
  induction n with
  | zero =>
    rw [show List.range 1 = [0] from rfl]
    simp [session_events, List.intersperse_singleton]
  | succ n ih =>
    rw [List.range_succ, List.map_append, List.map_cons, List.map_nil,
      intersperse_append_pair _ _ _ (by simp), ← ih, session_events]

/-- The session trace of `n + 1` runs contains exactly `n` sleeps. -/
theorem session_events_sleep_count (n ms : Nat) :
    (session_events (n + 1) ms).countP RunEvent.isSleep = n := by
  induction n with
  | zero => rfl
  | succ n ih =>
    rw [session_events, List.countP_append, ih]
    simp [List.countP_cons, RunEvent.isSleep]

/-- The session trace starts with the first run, not a sleep. -/
theorem session_events_head (n ms : Nat) :
    (session_events (n + 1) ms).head? = some (RunEvent.runStart 0) := by
  induction n with
  | zero => rfl
  | succ n ih =>
    rw [session_events, List.head?_append_of_ne_nil]
    · exact ih
    · intro hnil
      rw [hnil] at ih
      exact Option.noConfusion ih

/-- The session trace ends with the last run, not a sleep. -/
theorem session_events_last (n ms : Nat) :
    (session_events (n + 1) ms).getLast? = some (RunEvent.runStart n) := by
  cases n with
  | zero => rfl
  | succ n =>
    rw [session_events, show
      session_events (n + 1) ms ++
          [RunEvent.sleepBetween ms, RunEvent.runStart (n + 1)] =
        (session_events (n + 1) ms ++ [RunEvent.sleepBetween ms]) ++
          [RunEvent.runStart (n + 1)] by simp]
    exact List.getLast?_concat _

/-- Claim C5: for `runs = N > 1` the orchestrator trace is the `N` iterations
in order with the inter-run sleep interspersed between consecutive iterations
only — exactly `N - 1` sleep invocations, none before the first iteration and
none after the last. -/
theorem session_sleeps_between_runs (N ms : Nat) (h : 1 < N) :
    session_events N ms =
        List.intersperse (RunEvent.sleepBetween ms)
          ((List.range N).map RunEvent.runStart) ∧
      (session_events N ms).countP RunEvent.isSleep = N - 1 ∧
      (session_events N ms).head? = some (RunEvent.runStart 0) ∧
      (session_events N ms).getLast? = some (RunEvent.runStart (N - 1)) := by
  obtain ⟨n, rfl⟩ : ∃ n, N = n + 1 := ⟨N - 1, by omega⟩
  exact ⟨session_events_eq_intersperse n ms,
    by simpa using session_events_sleep_count n ms,
    session_events_head n ms,
    by simpa using session_events_last n ms⟩

/-- Witness for C5: a session of 3 runs with a 5 ms inter-run delay sleeps
exactly twice, and neither its first nor its last event is a sleep. -/
theorem session_sleeps_between_runs_witness :
    (session_events 3 5).countP RunEvent.isSleep = 2 ∧
      (session_events 3 5).head? = some (RunEvent.runStart 0) ∧
      (session_events 3 5).getLast? = some (RunEvent.runStart 2) := by
  have h := session_sleeps_between_runs 3 5 (by decide)
  exact ⟨h.2.1, h.2.2.1, h.2.2.2⟩

/-! ### Clone-mode artifact naming (spec-modelled) -/

/-- Modelled from the spec: the artifact name of the `N`-th clone snapshot,
`<base>.<N>` (spec sections 3 and 6; the trigger coordinator producing these
names lives in the absent `profiler.py`, and
`tests/trigger_unit_test.py` lines 87-88 show the `.0` suffix on the base
trace file). -/
def clone_snapshot_name (base : String) (n : Nat) : String :=
  base ++ "." ++ Nat.repr n

/-- Modelled from the spec: a clone-mode session holds a per-session suffix
counter starting at 0; each firing names its snapshot with the current
counter value and increments the counter.  `run_clone_session base k` returns
the `(suffix, name)` pairs of `k` firings in firing order, together with the
final counter value. -/
def run_clone_session (base : String) : Nat → List (Nat × String) × Nat
  | 0 => ([], 0)
  | k + 1 =>
    let s := run_clone_session base k
    (s.1 ++ [(s.2, clone_snapshot_name base s.2)], s.2 + 1)

/-- The `k` firings of a clone session use the suffixes `0, …, k - 1` in
firing order, and the counter ends at `k`. -/
theorem run_clone_session_spec (base : String) (k : Nat) :
    (run_clone_session base k).1 =
        (List.range k).map (fun n => (n, clone_snapshot_name base n)) ∧
      (run_clone_session base k).2 = k := by
  induction k with
  | zero => exact ⟨rfl, rfl⟩
  | succ k ih =>
    refine ⟨?_, ?_⟩
    · rw [run_clone_session]
      simp only [ih.1, ih.2, List.range_succ, List.map_append, List.map_cons,
        List.map_nil]
    · rw [run_clone_session]
      simp only [ih.2]

/-- Claim C4: within one clone-mode session, the `N`-th snapshot (in firing
order, `N` starting at 0) is named `<base>.<N>`, the per-session suffix
counter increases by one per firing, and the assigned suffixes are strictly
increasing — no suffix is ever reused within the session. -/
theorem clone_suffixes_increment_never_reused (base : String) (k : Nat) :
    (run_clone_session base k).1 =
        (List.range k).map (fun n => (n, clone_snapshot_name base n)) ∧
      (run_clone_session base k).2 = k ∧
      List.Pairwise (fun a b : Nat × String => a.1 < b.1)
        (run_clone_session base k).1 := by
  obtain ⟨h1, h2⟩ := run_clone_session_spec base k
  refine ⟨h1, h2, ?_⟩
  rw [h1, List.pairwise_map]
  exact List.pairwise_lt_range k

end Torq
